import Mathlib

/-!
Shallow embedding of `src/SFTPServerBackup.py` (kmrin/SFTPBackup).

The Python program is a one-shot backup pipeline: module-level startup creates a local
`cache` directory and loads `config.json`; `main` connects over SFTP, retrieves the
configured remote targets into the cache, builds a 7z archive of them, moves the archive
into the destination directory with a numbered-suffix collision policy bounded by a retry
limit, and removes the cache directory.

Pure functions of the source become Lean functions; the global mutable `retry_counter`
is threaded explicitly; external capabilities (SFTP transfer, the 7z executable, the
filesystem) are modelled by explicit outcome parameters.  Destination-directory state is a
list of file names.  `shutil.move` is modelled as the code's own `except FileExistsError`
handler assumes and as the specification describes the placement step: an existing
destination path raises, a fresh path receives the file.
-/

namespace SFTPBackup

/-- Decimal digit characters, as produced by Python string formatting of integers. -/
def decChar : Nat → Char
  | 0 => '0'
  | 1 => '1'
  | 2 => '2'
  | 3 => '3'
  | 4 => '4'
  | 5 => '5'
  | 6 => '6'
  | 7 => '7'
  | 8 => '8'
  | 9 => '9'
  | _ => '*'

/-- Fuel-driven most-significant-first decimal digit list; at the call site `decList`
the fuel `n + 1` always exceeds the number of digits of `n`. -/
def decListAux : Nat → Nat → List Char
  | 0, _ => []
  | fuel + 1, n =>
      if n < 10 then [decChar n] else decListAux fuel (n / 10) ++ [decChar (n % 10)]

/-- Decimal digit list of `n`, e.g. as Python renders `retry_counter` in an f-string. -/
def decList (n : Nat) : List Char := decListAux (n + 1) n

/-- Decimal string of `n` (Python `str(n)` / f-string interpolation of an `int`). -/
def decStr (n : Nat) : String := String.mk (decList n)

/-- Numeric value of a decimal digit character. -/
def charVal (ch : Char) : Nat := ch.toNat - 48

/-- Reads a most-significant-first digit list back into a number; inverse of `decList`. -/
def undec (l : List Char) : Nat := l.foldl (fun a ch => 10 * a + charVal ch) 0

lemma charVal_decChar {d : Nat} (h : d < 10) : charVal (decChar d) = d := by
  interval_cases d <;> rfl

lemma foldl_dec_append (a : Nat) (l : List Char) (c : Char) :
    List.foldl (fun a ch => 10 * a + charVal ch) a (l ++ [c]) =
      10 * List.foldl (fun a ch => 10 * a + charVal ch) a l + charVal c := by
  rw [List.foldl_append]
  rfl

lemma undec_decListAux : ∀ fuel n, n < fuel → undec (decListAux fuel n) = n := by
  intro fuel
  induction fuel with
  | zero => intro n h; omega
  | succ f ih =>
      intro n h
      unfold decListAux
      by_cases h10 : n < 10
      · rw [if_pos h10]
        show undec [decChar n] = n
        simp [undec, charVal_decChar h10]
      · rw [if_neg h10]
        have hn : 0 < n := by omega
        have hd : n / 10 < f := by
          have := Nat.div_lt_self hn (by norm_num : 1 < 10)
          omega
        have hstep : undec (decListAux f (n / 10) ++ [decChar (n % 10)]) =
            10 * undec (decListAux f (n / 10)) + charVal (decChar (n % 10)) := by
          unfold undec
          rw [foldl_dec_append]
        rw [hstep, ih _ hd, charVal_decChar (Nat.mod_lt n (by norm_num))]
        omega

lemma undec_decList (n : Nat) : undec (decList n) = n :=
  undec_decListAux _ n (Nat.lt_succ_self n)

lemma decList_injective : Function.Injective decList := by
  intro m n h
  rw [← undec_decList m, ← undec_decList n, h]

lemma decStr_injective : Function.Injective decStr := by
  intro m n h
  exact decList_injective (congrArg String.data h)

lemma decList_length_pos (n : Nat) : 0 < (decList n).length := by
  unfold decList decListAux
  split <;> simp

lemma decStr_length_pos (n : Nat) : 0 < (decStr n).length := decList_length_pos n

/-- Model of `os.path.join(dir, name)` for an ordinary directory argument. -/
def pyJoin (dir name : String) : String := dir ++ "/" ++ name

/-- Destination name slot `j` for base `name`: slot `0` is `name.7z` and slot `j ≥ 1` is
`name(j).7z` — the sequence of file names the placement code probes, in order. -/
def slot (name : String) (j : Nat) : String :=
  if j = 0 then name ++ ".7z" else name ++ "(" ++ decStr j ++ ")" ++ ".7z"

/-- Destination directory holding exactly the first `k` name slots of `name`. -/
def destSlots (name : String) (k : Nat) : List String := (List.range k).map (slot name)

lemma string_append_cancel_left {a b c : String} (h : a ++ b = a ++ c) : b = c := by
  have hd := congrArg String.data h
  rw [String.data_append, String.data_append] at hd
  exact String.ext (List.append_cancel_left hd)

lemma string_append_cancel_right {a b c : String} (h : a ++ c = b ++ c) : a = b := by
  have hd := congrArg String.data h
  rw [String.data_append, String.data_append] at hd
  exact String.ext (List.append_cancel_right hd)

lemma slot_right_injective (name : String) : Function.Injective (slot name) := by
  intro i j h
  unfold slot at h
  by_cases hi : i = 0 <;> by_cases hj : j = 0
  · omega
  · exfalso
    rw [if_pos hi, if_neg hj] at h
    have hlen := congrArg String.length h
    simp only [String.length_append] at hlen
    have := decStr_length_pos j
    have h3 : (".7z" : String).length = 3 := rfl
    have h1 : ("(" : String).length = 1 := rfl
    have h2 : (")" : String).length = 1 := rfl
    omega
  · exfalso
    rw [if_neg hi, if_pos hj] at h
    have hlen := congrArg String.length h
    simp only [String.length_append] at hlen
    have := decStr_length_pos i
    have h3 : (".7z" : String).length = 3 := rfl
    have h1 : ("(" : String).length = 1 := rfl
    have h2 : (")" : String).length = 1 := rfl
    omega
  · rw [if_neg hi, if_neg hj] at h
    have h4 := string_append_cancel_right h
    have h5 := string_append_cancel_right h4
    have h6 := string_append_cancel_left h5
    exact decStr_injective h6

lemma slot_mem_destSlots (name : String) (j k : Nat) :
    slot name j ∈ destSlots name k ↔ j < k := by
  unfold destSlots
  constructor
  · intro hm
    rcases List.mem_map.1 hm with ⟨i, hi, hij⟩
    have := slot_right_injective name hij
    subst this
    exact List.mem_range.1 hi
  · intro hj
    exact List.mem_map.2 ⟨j, List.mem_range.2 hj, rfl⟩

/-- Python runtime value of `retry_limit`: an `int` or a `str` (lines 98–105 of the
source leave a flag-supplied limit as the raw argument string). -/
inductive PyVal where
  | int (n : Nat)
  | str (s : String)
deriving DecidableEq

/-- Outcome of a Python comparison: a boolean, or a raised `TypeError`. -/
inductive CmpResult where
  | ok (b : Bool)
  | typeErr
deriving DecidableEq

/-- Python `retry_counter >= retry_limit`: comparing an `int` with a `str` raises
`TypeError`; comparing two ints yields their ordering. -/
def pyGe (n : Nat) (v : PyVal) : CmpResult :=
  match v with
  | PyVal.int m => CmpResult.ok (decide (n ≥ m))
  | PyVal.str _ => CmpResult.typeErr

/-- True for an ASCII decimal digit. -/
def charDigit (c : Char) : Bool := 48 ≤ c.toNat && c.toNat ≤ 57

def parseNatAux (acc : Nat) : List Char → Option Nat
  | [] => some acc
  | c :: rest => if charDigit c then parseNatAux (10 * acc + charVal c) rest else none

/-- Model of Python `int(s)` on the plain non-negative decimal strings a retry limit
takes: succeeds exactly on non-empty all-digit input, else raises `ValueError`. -/
def parseNat? (s : String) : Option Nat :=
  match s.data with
  | [] => none
  | l => parseNatAux 0 l

/-- Lines 98–106: `retry_limit = args.retries if args.retries else 10`.  The integer
parsed on line 100 is bound to `retry_limit_arg` and never used again, so a supplied
(non-empty, hence truthy) `--retries` value remains the raw string. -/
def retry_limit_of (retriesArg : Option String) : PyVal :=
  match retriesArg with
  | none => PyVal.int 10
  | some s => if s = "" then PyVal.int 10 else PyVal.str s

/-- Result of one call to `move_archive` (lines 143–164).
`returned` carries the string the function returns, the final value of the global
`retry_counter`, the destination directory contents afterwards, and the path at which
the archive file was actually written.  `exhausted` is the `cleanup()` path taken when
the suffix limit is reached (cache removed, `sys.exit(1)`).  `typeError` is the uncaught
`TypeError` raised by `retry_counter >= retry_limit` when `retry_limit` is a string. -/
inductive MoveResult where
  | returned (retPath : String) (counter : Nat) (dest : List String) (placedAt : String)
  | exhausted (counter : Nat) (dest : List String)
  | typeError (counter : Nat) (dest : List String)
deriving DecidableEq

/-- Destination directory contents after a `move_archive` call. -/
def MoveResult.destAfter : MoveResult → List String
  | MoveResult.returned _ _ d _ => d
  | MoveResult.exhausted _ d => d
  | MoveResult.typeError _ d => d

/-- The `except FileExistsError` handler (lines 161–162) discards the value of the
recursive `move_archive` call, after which the frame falls through to `return filepath`
— so a normal return is replaced by the frame's own path, while the exit taken on
exhaustion and an uncaught `TypeError` propagate. -/
def overrideReturn (fp : String) : MoveResult → MoveResult
  | MoveResult.returned _ c d p => MoveResult.returned fp c d p
  | r => r

lemma overrideReturn_destAfter (fp : String) (r : MoveResult) :
    (overrideReturn fp r).destAfter = r.destAfter := by
  cases r <;> rfl

/-- `move_archive(backup_dir, filename, retry=True)` with an integer `retry_limit` `L`
and the global `retry_counter` threaded as `counter`.  The body increments the counter,
checks `retry_counter >= retry_limit` (exhaustion runs `cleanup()`, which removes the
cache and exits), builds `filename(counter).7z`, and attempts the move; an existing
destination path raises `FileExistsError`, whose handler recurses, discards the
recursive result, and lets the frame return its own `filepath`. -/
def move_retry (bd fn : String) (L : Nat) (counter : Nat) (dest : List String) :
    MoveResult :=
  if h : counter + 1 ≥ L then
    MoveResult.exhausted (counter + 1) dest
  else if fn ++ "(" ++ decStr (counter + 1) ++ ")" ++ ".7z" ∈ dest then
    overrideReturn (pyJoin bd (fn ++ "(" ++ decStr (counter + 1) ++ ")" ++ ".7z"))
      (move_retry bd fn L (counter + 1) dest)
  else
    MoveResult.returned (pyJoin bd (fn ++ "(" ++ decStr (counter + 1) ++ ")" ++ ".7z"))
      (counter + 1) ((fn ++ "(" ++ decStr (counter + 1) ++ ")" ++ ".7z") :: dest)
      (pyJoin bd (fn ++ "(" ++ decStr (counter + 1) ++ ")" ++ ".7z"))
termination_by L - counter
decreasing_by omega

/-- `move_archive(backup_dir, filename)` at its initial call (`retry=False`), with the
global `retry_counter` passed as `counter` and `retry_limit` as `lim`.  The match on
`lim` realises the dynamic outcome of the `retry_counter >= retry_limit` comparison in
the first retry frame (`pyGe`): an `int` limit runs the bounded retry loop, a `str`
limit raises `TypeError` there.  On a collision the handler discards the recursive
result, so the frame returns its own (unsuffixed) `filepath`. -/
def move_archive (bd fn : String) (lim : PyVal) (counter : Nat) (dest : List String) :
    MoveResult :=
  if fn ++ ".7z" ∈ dest then
    match lim with
    | PyVal.int L => overrideReturn (pyJoin bd (fn ++ ".7z")) (move_retry bd fn L counter dest)
    | PyVal.str _ => MoveResult.typeError (counter + 1) dest
  else
    MoveResult.returned (pyJoin bd (fn ++ ".7z")) counter ((fn ++ ".7z") :: dest)
      (pyJoin bd (fn ++ ".7z"))

lemma slot_succ (name : String) (j : Nat) :
    name ++ "(" ++ decStr (j + 1) ++ ")" ++ ".7z" = slot name (j + 1) := by
  unfold slot
  rw [if_neg (Nat.succ_ne_zero j)]

lemma slot_zero (name : String) : slot name 0 = name ++ ".7z" := by
  unfold slot
  rw [if_pos rfl]

lemma move_retry_exhaust {bd fn : String} {L counter : Nat} {dest : List String}
    (h : counter + 1 ≥ L) :
    move_retry bd fn L counter dest = MoveResult.exhausted (counter + 1) dest := by
  rw [move_retry]
  rw [dif_pos h]

lemma move_retry_collide {bd fn : String} {L counter : Nat} {dest : List String}
    (h : ¬ counter + 1 ≥ L)
    (hm : fn ++ "(" ++ decStr (counter + 1) ++ ")" ++ ".7z" ∈ dest) :
    move_retry bd fn L counter dest =
      overrideReturn (pyJoin bd (fn ++ "(" ++ decStr (counter + 1) ++ ")" ++ ".7z"))
        (move_retry bd fn L (counter + 1) dest) := by
  rw [move_retry]
  rw [dif_neg h, if_pos hm]

lemma move_archive_collide_int {bd fn : String} {L counter : Nat} {dest : List String}
    (hm : fn ++ ".7z" ∈ dest) :
    move_archive bd fn (PyVal.int L) counter dest =
      overrideReturn (pyJoin bd (fn ++ ".7z")) (move_retry bd fn L counter dest) := by
  unfold move_archive
  rw [if_pos hm]

lemma move_archive_collide_str {bd fn s : String} {counter : Nat} {dest : List String}
    (hm : fn ++ ".7z" ∈ dest) :
    move_archive bd fn (PyVal.str s) counter dest =
      MoveResult.typeError (counter + 1) dest := by
  unfold move_archive
  rw [if_pos hm]

lemma move_archive_fresh {bd fn : String} {lim : PyVal} {counter : Nat}
    {dest : List String} (hm : ¬ fn ++ ".7z" ∈ dest) :
    move_archive bd fn lim counter dest =
      MoveResult.returned (pyJoin bd (fn ++ ".7z")) counter ((fn ++ ".7z") :: dest)
        (pyJoin bd (fn ++ ".7z")) := by
  unfold move_archive
  rw [if_neg hm]

lemma move_retry_fresh {bd fn : String} {L counter : Nat} {dest : List String}
    (h : ¬ counter + 1 ≥ L)
    (hm : ¬ fn ++ "(" ++ decStr (counter + 1) ++ ")" ++ ".7z" ∈ dest) :
    move_retry bd fn L counter dest =
      MoveResult.returned (pyJoin bd (fn ++ "(" ++ decStr (counter + 1) ++ ")" ++ ".7z"))
        (counter + 1) ((fn ++ "(" ++ decStr (counter + 1) ++ ")" ++ ".7z") :: dest)
        (pyJoin bd (fn ++ "(" ++ decStr (counter + 1) ++ ")" ++ ".7z")) := by
  rw [move_retry]
  rw [dif_neg h, if_neg hm]

/-- Trace of the retry loop over a destination holding exactly the slots
`0, …, k-1`: starting from counter `c` (the slot `c` probe having collided), the loop
either hits the limit `L` first (`L ≤ k`) and exhausts, or places the archive at slot
`k`, with the counter ending at `k`. -/
lemma move_retry_destSlots (bd name : String) (L k : Nat) :
    ∀ n c, k - c ≤ n → c < k → c < L →
      move_retry bd name L c (destSlots name k) =
        if L ≤ k then MoveResult.exhausted L (destSlots name k)
        else
          MoveResult.returned (pyJoin bd (slot name (c + 1))) k
            (slot name k :: destSlots name k) (pyJoin bd (slot name k)) := by
  intro n
  induction n with
  | zero => intro c h hck hcL; omega
  | succ m ih =>
      intro c h hck hcL
      by_cases hstop : c + 1 ≥ L
      · rw [move_retry_exhaust hstop]
        have hLe : c + 1 = L := by omega
        have hLk : L ≤ k := by omega
        rw [if_pos hLk, hLe]
      · by_cases hcol : c + 1 < k
        · have hmem : name ++ "(" ++ decStr (c + 1) ++ ")" ++ ".7z" ∈ destSlots name k := by
            rw [slot_succ]
            exact (slot_mem_destSlots name (c + 1) k).2 hcol
          rw [move_retry_collide hstop hmem]
          rw [ih (c + 1) (by omega) hcol (by omega)]
          by_cases hLk : L ≤ k
          · rw [if_pos hLk, if_pos hLk]
            rfl
          · rw [if_neg hLk, if_neg hLk, slot_succ]
            rfl
        · have hceq : c + 1 = k := by omega
          have hmem : ¬ name ++ "(" ++ decStr (c + 1) ++ ")" ++ ".7z" ∈ destSlots name k := by
            rw [slot_succ]
            intro hmm
            exact absurd ((slot_mem_destSlots name (c + 1) k).1 hmm) (by omega)
          rw [move_retry_fresh hstop hmem]
          have hLk : ¬ L ≤ k := by omega
          rw [if_neg hLk, slot_succ, hceq]

/-- `move_archive` on a destination holding exactly slots `0, …, k-1` of `name`, with
the global counter at its run-initial value `0` and an integer limit `L > 0`: if
`L ≤ k` the loop exhausts (the `cleanup()`/exit path) without writing anything; else the
archive is placed at slot `k` (which is `name.7z` itself when `k = 0`) while the function
returns the unsuffixed path. -/
lemma move_archive_destSlots (bd name : String) (L k : Nat) (hL : 0 < L) :
    move_archive bd name (PyVal.int L) 0 (destSlots name k) =
      if L ≤ k then MoveResult.exhausted L (destSlots name k)
      else
        MoveResult.returned (pyJoin bd (name ++ ".7z")) k
          (slot name k :: destSlots name k) (pyJoin bd (slot name k)) := by
  by_cases hk : 0 < k
  · have hmem : (name ++ ".7z") ∈ destSlots name k := by
      rw [← slot_zero]
      exact (slot_mem_destSlots name 0 k).2 hk
    rw [move_archive_collide_int hmem]
    rw [move_retry_destSlots bd name L k k 0 (by omega) hk hL]
    by_cases hLk : L ≤ k
    · rw [if_pos hLk, if_pos hLk]
      rfl
    · rw [if_neg hLk, if_neg hLk]
      rfl
  · have hk0 : k = 0 := by omega
    subst hk0
    have hmem : ¬ (name ++ ".7z") ∈ destSlots name 0 := by
      simp [destSlots]
    rw [move_archive_fresh hmem, if_neg (by omega : ¬ L ≤ 0), slot_zero]

/-- Whatever `move_archive` does, the destination directory afterwards is either
unchanged or has gained exactly one file whose name was previously unoccupied: no
existing destination file is ever overwritten or deleted. -/
lemma move_retry_dest_cases (bd fn : String) (L : Nat) :
    ∀ n c dest, L - c ≤ n →
      (move_retry bd fn L c dest).destAfter = dest ∨
      ∃ f, f ∉ dest ∧ (move_retry bd fn L c dest).destAfter = f :: dest := by
  intro n
  induction n with
  | zero =>
      intro c dest h
      left
      rw [move_retry_exhaust (by omega)]
      rfl
  | succ m ih =>
      intro c dest h
      by_cases hstop : c + 1 ≥ L
      · left
        rw [move_retry_exhaust hstop]
        rfl
      · by_cases hmem : fn ++ "(" ++ decStr (c + 1) ++ ")" ++ ".7z" ∈ dest
        · rw [move_retry_collide hstop hmem, overrideReturn_destAfter]
          exact ih (c + 1) dest (by omega)
        · rw [move_retry_fresh hstop hmem]
          right
          exact ⟨fn ++ "(" ++ decStr (c + 1) ++ ")" ++ ".7z", hmem, rfl⟩

/-- Timestamp fields as read by `datetime.now().strftime` in the source. -/
structure DateTime where
  day : Nat
  month : Nat
  year : Nat
  hour : Nat
  minute : Nat
  second : Nat
deriving DecidableEq

/-- Two-digit zero-padded decimal field, as `strftime` renders `%d`, `%m`, `%y`, `%H`,
`%M`. -/
def pad2 (n : Nat) : String := if n < 10 then "0" ++ decStr n else decStr n

/-- The `'%d.%m.%y-%H%M'` format used by `get_filename` (line 132): minute resolution,
the seconds field is not rendered. -/
def fmtMinute (t : DateTime) : String :=
  pad2 t.day ++ "." ++ pad2 t.month ++ "." ++ pad2 (t.year % 100) ++ "-" ++
    pad2 t.hour ++ pad2 t.minute

/-- `get_filename` (lines 131–135), with the wall-clock reading passed explicitly. -/
def get_filename (archive_name : String) (t : DateTime) : String :=
  archive_name ++ "-" ++ fmtMinute t

/-- Outcome of `sftp.get([target], localpath='cache', recurse=True)` for one target:
the top-level entries it adds to the cache on success, or the exception class raised. -/
inductive FetchOutcome where
  | ok (entries : List String)
  | noSuchFile
  | noSuchPath
  | err (msg : String)
deriving DecidableEq

/-- Result of the retrieval loop (lines 174–186): a failure carries the cache contents
at that point, the loop variable `info` (the offending target) and the logged message. -/
inductive RetrieveResult where
  | success (cache : List String)
  | failure (cache : List String) (failedTarget : String) (msg : String)
deriving DecidableEq

/-- Message logged by the `SFTPNoSuchFile` / `SFTPNoSuchPath` handlers (lines 179, 182):
`f'No such file/path: "{info}"'`. -/
def noSuchMsg (info : String) : String := "No such file/path: \x22" ++ info ++ "\x22"

/-- Message logged by the generic `except Exception` handler (line 185):
`f'Could not finish data retrieval: {e}'`. -/
def genericMsg (e : String) : String := "Could not finish data retrieval: " ++ e

/-- The `for info in data` loop (lines 175–186): targets strictly in order, the first
failing fetch aborts the whole stage (the `try` wraps the entire loop). -/
def retrieveLoop (fetch : String → FetchOutcome) :
    List String → List String → RetrieveResult
  | [], acc => RetrieveResult.success acc
  | t :: ts, acc =>
    match fetch t with
    | FetchOutcome.ok entries => retrieveLoop fetch ts (acc ++ entries)
    | FetchOutcome.noSuchFile => RetrieveResult.failure acc t (noSuchMsg t)
    | FetchOutcome.noSuchPath => RetrieveResult.failure acc t (noSuchMsg t)
    | FetchOutcome.err e => RetrieveResult.failure acc t (genericMsg e)

/-- `leadsWith needle l`: `l` starts with the character list `needle`. -/
def leadsWith : List Char → List Char → Bool
  | [], _ => true
  | _ :: _, [] => false
  | a :: as, b :: bs => a == b && leadsWith as bs

/-- `occursIn needle hay`: `needle` occurs contiguously somewhere in `hay`. -/
def occursIn (needle : List Char) : List Char → Bool
  | [] => needle.isEmpty
  | c :: rest => leadsWith needle (c :: rest) || occursIn needle rest

/-- A message names a target when the target occurs verbatim in the message text. -/
def mentions (msg target : String) : Bool := occursIn target.data msg.data

lemma leadsWith_append (needle rest : List Char) :
    leadsWith needle (needle ++ rest) = true := by
  induction needle with
  | nil => rfl
  | cons a as ih => simp [leadsWith, ih]

lemma occursIn_append (p needle s : List Char) :
    occursIn needle (p ++ (needle ++ s)) = true := by
  induction p with
  | nil =>
      show occursIn needle (needle ++ s) = true
      cases h : needle ++ s with
      | nil =>
          rcases List.append_eq_nil.1 h with ⟨h1, _⟩
          subst h1
          rfl
      | cons c rest =>
          rw [occursIn, ← h, leadsWith_append]
          rfl
  | cons c p ih =>
      show occursIn needle (c :: (p ++ (needle ++ s))) = true
      rw [occursIn, ih, Bool.or_true]

lemma mentions_noSuchMsg (t : String) : mentions (noSuchMsg t) t = true := by
  unfold mentions noSuchMsg
  have hd : ("No such file/path: \x22" ++ t ++ "\x22").data =
      "No such file/path: \x22".data ++ (t.data ++ "\x22".data) := by
    rw [String.data_append, String.data_append, List.append_assoc]
  rw [hd]
  exact occursIn_append _ _ _

/-- Presence of the three keys read from `config.json` (lines 115–121); the SFTP
connection record is never interpreted by the core and is modelled opaquely. -/
structure ConfigJson where
  archive_name : Option String
  sftp_config : Option Unit
  data : Option (List String)

/-- Outcome of the connection phase (lines 167–171): only `socket.gaierror` and
`asyncssh.misc.PermissionDenied` have handlers (lines 187–192); any other exception of
this phase propagates uncaught (`err`). -/
inductive ConnectOutcome where
  | ok
  | gaierror (msg : String)
  | permissionDenied (reason : String)
  | err (msg : String)

/-- One run's external world: command-line arguments, `config.json`, the SFTP transfer
capability, success of the archiver subprocesses, the destination directory contents
and the wall clock.  `archiveOk` covers the `chmod` and 7z invocations (lines 205–208),
whose non-zero exit raises `CalledProcessError` out of `run_command`'s `check=True`. -/
structure Env where
  retriesArg : Option String
  dirArg : Option String
  config : Option ConfigJson
  connect : ConnectOutcome
  fetch : String → FetchOutcome
  archiveOk : Bool
  destInit : List String
  now : DateTime

/-- Observable outcome of one process run: exit status, whether the `cache` directory
was created and whether it is gone at process end, how many times `cleanup` ran, the
path printed by the success message, and the destination directory contents. -/
structure RunResult where
  exitCode : Nat
  cacheCreated : Bool
  cacheRemoved : Bool
  cleanupCalls : Nat
  reported : Option String
  destFinal : List String
deriving DecidableEq

/-- The body of `main` (lines 166–217) for a validated configuration.  `cleanup`
(lines 123–129) removes the cache directory and, unless called with `success=True`,
exits with status 1; an exception left uncaught (other connection errors, a failing
subprocess, the `TypeError` of the string retry limit) ends the interpreter with
status 1 without ever running `cleanup`, so the cache directory stays behind. -/
def runMain (env : Env) (lim : PyVal) (an : String) (data : List String)
    (bd : String) : RunResult :=
  match env.connect with
  | ConnectOutcome.gaierror _ => ⟨1, true, true, 1, none, env.destInit⟩
  | ConnectOutcome.permissionDenied _ => ⟨1, true, true, 1, none, env.destInit⟩
  | ConnectOutcome.err _ => ⟨1, true, false, 0, none, env.destInit⟩
  | ConnectOutcome.ok =>
    match retrieveLoop env.fetch data [] with
    | RetrieveResult.failure _ _ _ => ⟨1, true, true, 1, none, env.destInit⟩
    | RetrieveResult.success _ =>
      if env.archiveOk then
        match move_archive bd (get_filename an env.now) lim 0 env.destInit with
        | MoveResult.returned p _ d _ => ⟨1, true, true, 1, some p, d⟩
        | MoveResult.exhausted _ d => ⟨1, true, true, 1, none, d⟩
        | MoveResult.typeError _ d => ⟨1, true, false, 0, none, d⟩
      else ⟨1, true, false, 0, none, env.destInit⟩

/-- Startup from `config.json` loading onwards (lines 108–121), the `__main__` guard's
`--dir` check (lines 219–222), then `main`. -/
def runArgsDone (env : Env) (lim : PyVal) : RunResult :=
  match env.config with
  | none => ⟨1, true, false, 0, none, env.destInit⟩
  | some cfg =>
    match cfg.archive_name, cfg.sftp_config, cfg.data with
    | some an, some _, some data =>
        match env.dirArg with
        | none => ⟨1, true, false, 0, none, env.destInit⟩
        | some bd => runMain env lim an data bd
    | _, _, _ => ⟨1, true, false, 0, none, env.destInit⟩

/-- One whole process run.  Module-level startup creates the cache directory on line 91
— before arguments are validated and before `config.json` is read — so `cacheCreated`
is `true` in every outcome; `sys.exit(1)` paths that never reach `cleanup` leave it
behind.  Lines 98–104 parse a supplied `--retries` into the unused `retry_limit_arg`,
exiting with status 1 if `int()` fails; `retry_limit` itself is `retry_limit_of`. -/
def run (env : Env) : RunResult :=
  match env.retriesArg with
  | some s =>
      if s = "" then runArgsDone env (retry_limit_of env.retriesArg)
      else
        match parseNat? s with
        | none => ⟨1, true, false, 0, none, env.destInit⟩
        | some _ => runArgsDone env (retry_limit_of env.retriesArg)
  | none => runArgsDone env (retry_limit_of env.retriesArg)

/-- An external process invocation: argv and working directory. -/
structure Invocation where
  command : List String
  cwd : String
deriving DecidableEq

/-- The module-level cache directory (line 90): `os.path.join(os.getcwd(), 'cache')`. -/
def cache_dir (workdir : String) : String := pyJoin workdir "cache"

/-- `run_command` (lines 137–141): every subprocess runs with `cwd=cache_dir`. -/
def run_command (workdir : String) (command : List String) : Invocation :=
  ⟨command, cache_dir workdir⟩

/-- The 7z command line built on line 201:
`[executable, 'a', '-t7z', f'{filename}.7z', *data]`. -/
def archive_command (executable filename : String) (data : List String) : List String :=
  [executable, "a", "-t7z", filename ++ ".7z"] ++ data

/-- The archiving invocation performed on line 208. -/
def archiveInvocation (workdir executable filename : String) (data : List String) :
    Invocation :=
  run_command workdir (archive_command executable filename data)

/-- Modelled from the spec: the archiving capability ("compress inputs into archive
file at path X") creates, on success, exactly one archive file at its archive-name
argument (argv index 3 of the line 201 command) resolved against the invocation's
working directory. -/
def archiver_output_path (inv : Invocation) : String :=
  pyJoin inv.cwd (inv.command.getD 3 "")

/-- The path segment after the last `'/'`: `cur` is the segment read so far. -/
def lastSegment (cur : List Char) : List Char → List Char
  | [] => cur
  | c :: rest => if c = '/' then lastSegment [] rest else lastSegment (cur ++ [c]) rest

/-- Modelled from the spec: the transfer capability `Session.fetch(remotePath,
localDir, recursive=true)` materialises the fetched tree under `localDir` as one
top-level entry named after the remote path's final component (its base name). -/
def fetchLocalName (p : String) : String := String.mk (lastSegment [] p.data)

lemma lastSegment_no_slash (l : List Char) (h : '/' ∉ l) :
    ∀ cur, lastSegment cur l = cur ++ l := by
  induction l with
  | nil => intro cur; rw [lastSegment, List.append_nil]
  | cons c rest ih =>
      intro cur
      have hc : c ≠ '/' := fun he => h (he ▸ List.mem_cons_self c rest)
      rw [lastSegment, if_neg hc, ih (fun hm => h (List.mem_cons_of_mem c hm)),
        List.append_assoc]
      rfl

/-- A remote target without a directory component is its own local base name. -/
lemma fetchLocalName_no_slash (p : String) (h : '/' ∉ p.data) : fetchLocalName p = p := by
  unfold fetchLocalName
  rw [lastSegment_no_slash p.data h [], List.nil_append]

/-- Cache entries added by one fetch. -/
def FetchOutcome.entries : FetchOutcome → List String
  | FetchOutcome.ok es => es
  | _ => []

/-- Cache contents contributed by a list of targets that all fetch successfully. -/
def cachedOf (fetch : String → FetchOutcome) : List String → List String
  | [] => []
  | t :: ts => (fetch t).entries ++ cachedOf fetch ts

lemma retrieveLoop_ok_front (fetch : String → FetchOutcome) (pre : List String)
    (hpre : ∀ t ∈ pre, ∃ es, fetch t = FetchOutcome.ok es) :
    ∀ acc rest, retrieveLoop fetch (pre ++ rest) acc =
      retrieveLoop fetch rest (acc ++ cachedOf fetch pre) := by
  induction pre with
  | nil =>
      intro acc rest
      rw [List.nil_append]
      rw [show cachedOf fetch [] = [] from rfl, List.append_nil]
  | cons t ts ih =>
      intro acc rest
      obtain ⟨es, he⟩ := hpre t (List.mem_cons_self t ts)
      rw [List.cons_append]
      show (match fetch t with
        | FetchOutcome.ok entries => retrieveLoop fetch (ts ++ rest) (acc ++ entries)
        | FetchOutcome.noSuchFile => RetrieveResult.failure acc t (noSuchMsg t)
        | FetchOutcome.noSuchPath => RetrieveResult.failure acc t (noSuchMsg t)
        | FetchOutcome.err e => RetrieveResult.failure acc t (genericMsg e)) = _
      rw [he]
      show retrieveLoop fetch (ts ++ rest) (acc ++ es) = _
      rw [ih (fun x hx => hpre x (List.mem_cons_of_mem t hx)) (acc ++ es) rest]
      rw [show cachedOf fetch (t :: ts) = (fetch t).entries ++ cachedOf fetch ts from rfl]
      rw [he, List.append_assoc]
      rfl

/-!  Claim theorems. -/

/-- C1: the claim "the cache directory is destroyed exactly once on every exit path
(success, retrieval failure, archive failure, placement exhaustion)" fails on the
archive-failure path: with a valid configuration, a successful connection and
retrieval, and the 7z invocation exiting non-zero, the uncaught `CalledProcessError`
ends the run with exit status 1, `cleanup` is never invoked, and the cache directory
is left behind. -/
theorem C1_archive_failure_skips_cleanup :
    run ⟨none, some "b", some ⟨some "mc", some (), some ["world"]⟩, ConnectOutcome.ok,
        fun _ => FetchOutcome.ok ["world"], false, [], ⟨1, 1, 25, 12, 0, 0⟩⟩ =
      ⟨1, true, false, 0, none, []⟩ := rfl

/-- C2: placement never overwrites or deletes an existing destination file: after any
`move_archive` call, the destination directory is either unchanged or extended by
exactly one file whose name was previously unoccupied. -/
theorem C2_never_overwrites (bd fn : String) (lim : PyVal) (c : Nat)
    (dest : List String) :
    (move_archive bd fn lim c dest).destAfter = dest ∨
    ∃ f, f ∉ dest ∧ (move_archive bd fn lim c dest).destAfter = f :: dest := by
  by_cases hmem : fn ++ ".7z" ∈ dest
  · cases lim with
    | str s =>
        left
        rw [move_archive_collide_str hmem]
        rfl
    | int L =>
        rw [move_archive_collide_int hmem, overrideReturn_destAfter]
        exact move_retry_dest_cases bd fn L (L - c) c dest (le_refl _)
  · right
    refine ⟨fn ++ ".7z", hmem, ?_⟩
    rw [move_archive_fresh hmem]
    rfl

/-- C3: over a destination occupying exactly the slots `name.7z, name(1).7z, …,
name(k-1).7z` (slot `j ≥ 1` is `name(j).7z`, slot `0` the unsuffixed `name.7z`), with
the run-initial counter `0` and an integer `retryLimit` `L > 0`: if `k < L`, placement
succeeds and writes the archive to slot `k`, the counter having taken the suffix
values `1, …, k` in strictly increasing order, none reused; if `k ≥ L`, the loop
fails through the exhaustion (`cleanup()`) path and writes nothing new to the
destination. -/
theorem C3_placement_slots (bd name : String) (L k : Nat) (hL : 0 < L) :
    (k < L →
      move_archive bd name (PyVal.int L) 0 (destSlots name k) =
        MoveResult.returned (pyJoin bd (name ++ ".7z")) k
          (slot name k :: destSlots name k) (pyJoin bd (slot name k))) ∧
    (L ≤ k →
      move_archive bd name (PyVal.int L) 0 (destSlots name k) =
        MoveResult.exhausted L (destSlots name k)) := by
  constructor
  · intro hk
    rw [move_archive_destSlots bd name L k hL, if_neg (by omega)]
  · intro hk
    rw [move_archive_destSlots bd name L k hL, if_pos hk]

/-- Witness for C3 at `k = 2`, `L = 10`. -/
theorem C3_placement_slots_witness :
    (2 < 10 →
      move_archive "d" "mc" (PyVal.int 10) 0 (destSlots "mc" 2) =
        MoveResult.returned (pyJoin "d" ("mc" ++ ".7z")) 2
          (slot "mc" 2 :: destSlots "mc" 2) (pyJoin "d" (slot "mc" 2))) ∧
    (10 ≤ 2 →
      move_archive "d" "mc" (PyVal.int 10) 0 (destSlots "mc" 2) =
        MoveResult.exhausted 10 (destSlots "mc" 2)) :=
  C3_placement_slots "d" "mc" 10 2 (by decide)

/-- C4: the claim "the reported path is where the archive actually ended up" fails
after a collision retry: with `mc-01.01.25-1200.7z` already occupying the destination,
the archive is placed at `mc-01.01.25-1200(1).7z`, yet the pipeline reports
`d/mc-01.01.25-1200.7z` — the handler on line 162 discards the recursive
`move_archive` result and line 164 returns the frame's own (collided) path. -/
theorem C4_reported_path_not_final :
    run ⟨none, some "d", some ⟨some "mc", some (), some ["world"]⟩, ConnectOutcome.ok,
        fun _ => FetchOutcome.ok ["world"], true, ["mc-01.01.25-1200.7z"],
        ⟨1, 1, 25, 12, 0, 0⟩⟩ =
      ⟨1, true, true, 1, some "d/mc-01.01.25-1200.7z",
        ["mc-01.01.25-1200(1).7z", "mc-01.01.25-1200.7z"]⟩ ∧
    pyJoin "d" "mc-01.01.25-1200(1).7z" ≠ "d/mc-01.01.25-1200.7z" := by
  constructor
  · simp [run, runArgsDone, runMain, retrieveLoop, retry_limit_of, get_filename,
      fmtMinute, pad2, move_archive, move_retry, overrideReturn, pyJoin, decStr,
      decList, decListAux, decChar]
  · decide

/-- C5: the process exit status is 1 on every path — all failure paths and, notably,
the documented success path (line 217 runs `sys.exit(1)` after printing the success
message). -/
theorem C5_exit_code_always_one (env : Env) : (run env).exitCode = 1 := by
  obtain ⟨ra, da, cf, cn, f, ao, di, ts⟩ := env
  have hm : ∀ lim an data bd,
      (runMain ⟨ra, da, cf, cn, f, ao, di, ts⟩ lim an data bd).exitCode = 1 := by
    intro lim an data bd
    show (match cn with
      | ConnectOutcome.gaierror _ => (⟨1, true, true, 1, none, di⟩ : RunResult)
      | ConnectOutcome.permissionDenied _ => ⟨1, true, true, 1, none, di⟩
      | ConnectOutcome.err _ => ⟨1, true, false, 0, none, di⟩
      | ConnectOutcome.ok =>
        match retrieveLoop f data [] with
        | RetrieveResult.failure _ _ _ => ⟨1, true, true, 1, none, di⟩
        | RetrieveResult.success _ =>
          if ao then
            match move_archive bd (get_filename an ts) lim 0 di with
            | MoveResult.returned p _ d _ => ⟨1, true, true, 1, some p, d⟩
            | MoveResult.exhausted _ d => ⟨1, true, true, 1, none, d⟩
            | MoveResult.typeError _ d => ⟨1, true, false, 0, none, d⟩
          else ⟨1, true, false, 0, none, di⟩).exitCode = 1
    cases cn with
    | ok =>
        cases retrieveLoop f data [] with
        | success cache =>
            cases ao with
            | true =>
                rw [if_pos rfl]
                cases move_archive bd (get_filename an ts) lim 0 di <;> rfl
            | false => rfl
        | failure a b c => rfl
    | gaierror m => rfl
    | permissionDenied r => rfl
    | err m => rfl
  have hA : ∀ lim, (runArgsDone ⟨ra, da, cf, cn, f, ao, di, ts⟩ lim).exitCode = 1 := by
    intro lim
    unfold runArgsDone
    cases cf with
    | none => rfl
    | some cfg =>
        obtain ⟨a, sc, d⟩ := cfg
        cases a with
        | none => cases sc <;> cases d <;> rfl
        | some an =>
            cases sc with
            | none => cases d <;> rfl
            | some u =>
                cases d with
                | none => rfl
                | some data =>
                    cases da with
                    | none => rfl
                    | some bd => exact hm lim an data bd
  unfold run
  split
  · split
    · exact hA _
    · split
      · rfl
      · exact hA _
  · exact hA _

/-- C6 counterexample: when target `B` fails with a generic transfer error, retrieval
stops with only `A`'s contents cached, but the logged message is built from the
exception text alone and does not name `B`, refuting the claim that the reported
error always names the offending target. -/
theorem C6_generic_error_message_counterexample :
    retrieveLoop
      (fun t => if t = "A" then FetchOutcome.ok ["A1"]
        else if t = "B" then FetchOutcome.err "oops" else FetchOutcome.ok ["C1"])
      ["A", "B", "C"] [] =
      RetrieveResult.failure ["A1"] "B" "Could not finish data retrieval: oops" ∧
    mentions "Could not finish data retrieval: oops" "B" = false := ⟨rfl, rfl⟩

/-- C6 (amended): retrieval processes the targets strictly in order and stops at the
first failing one, with no partial continue: the stage fails carrying the failing
target as the offending item, the cache holds exactly the fetched contents of the
preceding targets, and the logged message names the target in the missing-file/path
cases — for a generic transfer error the message carries the exception text instead. -/
theorem C6_stops_at_first_failure (fetch : String → FetchOutcome) (pre : List String)
    (B : String) (post : List String)
    (hpre : ∀ t ∈ pre, ∃ es, fetch t = FetchOutcome.ok es)
    (hB : ∀ es, fetch B ≠ FetchOutcome.ok es) :
    ∃ msg, retrieveLoop fetch (pre ++ B :: post) [] =
      RetrieveResult.failure (cachedOf fetch pre) B msg ∧
      ((fetch B = FetchOutcome.noSuchFile ∨ fetch B = FetchOutcome.noSuchPath) →
        mentions msg B = true) := by
  rw [retrieveLoop_ok_front fetch pre hpre [] (B :: post), List.nil_append]
  cases hfb : fetch B with
  | ok es => exact absurd hfb (hB es)
  | noSuchFile =>
      refine ⟨noSuchMsg B, ?_, fun _ => mentions_noSuchMsg B⟩
      show (match fetch B with
        | FetchOutcome.ok entries =>
            retrieveLoop fetch post (cachedOf fetch pre ++ entries)
        | FetchOutcome.noSuchFile =>
            RetrieveResult.failure (cachedOf fetch pre) B (noSuchMsg B)
        | FetchOutcome.noSuchPath =>
            RetrieveResult.failure (cachedOf fetch pre) B (noSuchMsg B)
        | FetchOutcome.err e =>
            RetrieveResult.failure (cachedOf fetch pre) B (genericMsg e)) = _
      rw [hfb]
  | noSuchPath =>
      refine ⟨noSuchMsg B, ?_, fun _ => mentions_noSuchMsg B⟩
      show (match fetch B with
        | FetchOutcome.ok entries =>
            retrieveLoop fetch post (cachedOf fetch pre ++ entries)
        | FetchOutcome.noSuchFile =>
            RetrieveResult.failure (cachedOf fetch pre) B (noSuchMsg B)
        | FetchOutcome.noSuchPath =>
            RetrieveResult.failure (cachedOf fetch pre) B (noSuchMsg B)
        | FetchOutcome.err e =>
            RetrieveResult.failure (cachedOf fetch pre) B (genericMsg e)) = _
      rw [hfb]
  | err e =>
      refine ⟨genericMsg e, ?_, ?_⟩
      · show (match fetch B with
          | FetchOutcome.ok entries =>
              retrieveLoop fetch post (cachedOf fetch pre ++ entries)
          | FetchOutcome.noSuchFile =>
              RetrieveResult.failure (cachedOf fetch pre) B (noSuchMsg B)
          | FetchOutcome.noSuchPath =>
              RetrieveResult.failure (cachedOf fetch pre) B (noSuchMsg B)
          | FetchOutcome.err e =>
              RetrieveResult.failure (cachedOf fetch pre) B (genericMsg e)) = _
        rw [hfb]
      · intro hcase
        rcases hcase with h1 | h1 <;> exact FetchOutcome.noConfusion h1

/-- The transfer behaviour used by the C6 witness: `A` succeeds, `B` is missing. -/
def fetchC6 : String → FetchOutcome := fun t =>
  if t = "A" then FetchOutcome.ok ["A1"]
  else if t = "B" then FetchOutcome.noSuchFile
  else FetchOutcome.ok ["C1"]

/-- Witness for C6 with targets `[A, B, C]` and `B` missing remotely. -/
theorem C6_stops_at_first_failure_witness :
    ∃ msg, retrieveLoop fetchC6 (["A"] ++ "B" :: ["C"]) [] =
      RetrieveResult.failure (cachedOf fetchC6 ["A"]) "B" msg ∧
      ((fetchC6 "B" = FetchOutcome.noSuchFile ∨ fetchC6 "B" = FetchOutcome.noSuchPath) →
        mentions msg "B" = true) :=
  C6_stops_at_first_failure fetchC6 ["A"] "B" ["C"]
    (by
      intro t ht
      have := List.mem_singleton.1 ht
      subst this
      exact ⟨["A1"], rfl⟩)
    (by
      intro es h
      rw [show fetchC6 "B" = FetchOutcome.noSuchFile from rfl] at h
      exact FetchOutcome.noConfusion h)

/-- C7 counterexample: with `config.json` absent, the cache directory has already been
created (line 91 precedes the config load of line 108) and the run exits without
removing it — refuting "no cache area exists yet at the moment of failure" and
"leaves no cache directory behind". -/
theorem C7_cache_already_created_counterexample :
    (run ⟨none, some "b", none, ConnectOutcome.ok, fun _ => FetchOutcome.ok [], true,
        [], ⟨1, 1, 25, 12, 0, 0⟩⟩).cacheCreated = true ∧
    (run ⟨none, some "b", none, ConnectOutcome.ok, fun _ => FetchOutcome.ok [], true,
        [], ⟨1, 1, 25, 12, 0, 0⟩⟩).cacheRemoved = false := ⟨rfl, rfl⟩

/-- C7 (amended): when configuration loading fails (missing file or missing key), the
cache directory has already been created — its creation precedes the configuration
load — and the run terminates with exit status 1 without ever calling `cleanup`,
leaving the cache directory behind. -/
theorem C7_config_failure_leaves_cache (env : Env)
    (h : env.config = none ∨ ∃ cfg, env.config = some cfg ∧
      (cfg.archive_name = none ∨ cfg.sftp_config = none ∨ cfg.data = none)) :
    (run env).exitCode = 1 ∧ (run env).cacheCreated = true ∧
    (run env).cacheRemoved = false ∧ (run env).cleanupCalls = 0 := by
  obtain ⟨ra, da, cf, cn, f, ao, di, ts⟩ := env
  have hA : ∀ lim, runArgsDone ⟨ra, da, cf, cn, f, ao, di, ts⟩ lim =
      ⟨1, true, false, 0, none, di⟩ := by
    intro lim
    unfold runArgsDone
    rcases h with h | ⟨cfg, hcfg, hkey⟩
    · rw [h]
    · rw [hcfg]
      obtain ⟨a, sc, d⟩ := cfg
      rcases hkey with hk | hk | hk
      · have ha : a = none := hk
        subst ha
        cases sc <;> cases d <;> rfl
      · have hsc : sc = none := hk
        subst hsc
        cases a <;> cases d <;> rfl
      · have hd : d = none := hk
        subst hd
        cases a <;> cases sc <;> rfl
  have hrun : run ⟨ra, da, cf, cn, f, ao, di, ts⟩ = ⟨1, true, false, 0, none, di⟩ := by
    unfold run
    split
    · split
      · exact hA _
      · split
        · rfl
        · exact hA _
    · exact hA _
  rw [hrun]
  exact ⟨rfl, rfl, rfl, rfl⟩

/-- Witness for C7 at a run with `config.json` missing. -/
theorem C7_config_failure_leaves_cache_witness :
    (run ⟨none, some "b", none, ConnectOutcome.ok, fun _ => FetchOutcome.ok [], true,
        [], ⟨1, 1, 25, 12, 0, 0⟩⟩).exitCode = 1 ∧
    (run ⟨none, some "b", none, ConnectOutcome.ok, fun _ => FetchOutcome.ok [], true,
        [], ⟨1, 1, 25, 12, 0, 0⟩⟩).cacheCreated = true ∧
    (run ⟨none, some "b", none, ConnectOutcome.ok, fun _ => FetchOutcome.ok [], true,
        [], ⟨1, 1, 25, 12, 0, 0⟩⟩).cacheRemoved = false ∧
    (run ⟨none, some "b", none, ConnectOutcome.ok, fun _ => FetchOutcome.ok [], true,
        [], ⟨1, 1, 25, 12, 0, 0⟩⟩).cleanupCalls = 0 :=
  C7_config_failure_leaves_cache
    ⟨none, some "b", none, ConnectOutcome.ok, fun _ => FetchOutcome.ok [], true, [],
      ⟨1, 1, 25, 12, 0, 0⟩⟩ (Or.inl rfl)

/-- C8 counterexample: the 7z command receives the configured remote path strings, not
the top-level names under which the targets land in the cache: for the target `a/b`
the retrieved top-level entry is named `b`, yet the command names `a/b`. -/
theorem C8_inputs_counterexample :
    (archiveInvocation "w" "7zz" "mc-01.01.25-1200" ["a/b"]).command.drop 4 = ["a/b"] ∧
    List.map fetchLocalName ["a/b"] = ["b"] ∧ (["a/b"] : List String) ≠ ["b"] := by
  refine ⟨rfl, rfl, ?_⟩
  decide

/-- C8 (amended): the archive step invokes the archiver with working directory pinned
to the cache area and archive name `<generatedName>.7z`, so on success the capability
produces its single archive at `<cacheArea>/<generatedName>.7z`; its input list is the
configured remote target strings, which coincide with the top-level names under which
the targets were fetched into the cache exactly when every target is a bare name with
no directory component. -/
theorem C8_archive_invocation (wd exe an : String) (t : DateTime) (data : List String)
    (h : ∀ p ∈ data, ('/' : Char) ∉ p.data) :
    (archiveInvocation wd exe (get_filename an t) data).cwd = cache_dir wd ∧
    (archiveInvocation wd exe (get_filename an t) data).command =
      [exe, "a", "-t7z", get_filename an t ++ ".7z"] ++ data ∧
    archiver_output_path (archiveInvocation wd exe (get_filename an t) data) =
      pyJoin (cache_dir wd) (get_filename an t ++ ".7z") ∧
    (archiveInvocation wd exe (get_filename an t) data).command.drop 4 =
      List.map fetchLocalName data := by
  refine ⟨rfl, rfl, rfl, ?_⟩
  show data = List.map fetchLocalName data
  induction data with
  | nil => rfl
  | cons p ps ih =>
      rw [List.map_cons, fetchLocalName_no_slash p (h p (List.mem_cons_self p ps))]
      rw [← ih (fun x hx => h x (List.mem_cons_of_mem p hx))]

/-- Witness for C8 with the flat target list `["world"]`. -/
theorem C8_archive_invocation_witness :
    (archiveInvocation "w" "7zz" (get_filename "mc" ⟨1, 1, 25, 12, 0, 0⟩)
      ["world"]).cwd = cache_dir "w" ∧
    (archiveInvocation "w" "7zz" (get_filename "mc" ⟨1, 1, 25, 12, 0, 0⟩)
      ["world"]).command =
      ["7zz", "a", "-t7z", get_filename "mc" ⟨1, 1, 25, 12, 0, 0⟩ ++ ".7z"] ++ ["world"] ∧
    archiver_output_path (archiveInvocation "w" "7zz"
      (get_filename "mc" ⟨1, 1, 25, 12, 0, 0⟩) ["world"]) =
      pyJoin (cache_dir "w") (get_filename "mc" ⟨1, 1, 25, 12, 0, 0⟩ ++ ".7z") ∧
    (archiveInvocation "w" "7zz" (get_filename "mc" ⟨1, 1, 25, 12, 0, 0⟩)
      ["world"]).command.drop 4 = List.map fetchLocalName ["world"] :=
  C8_archive_invocation "w" "7zz" "mc" ⟨1, 1, 25, 12, 0, 0⟩ ["world"]
    (by
      intro p hp
      have := List.mem_singleton.1 hp
      subst this
      decide)

/-- C9: the generated archive name is the configured base name, a `'-'` separator and
the timestamp at minute resolution; for a fixed base name and a fixed minute (all
rendered fields equal, the seconds free to differ) repeated invocations produce the
same name. -/
theorem C9_filename_minute_stable (an : String) (t1 t2 : DateTime)
    (h : t1.day = t2.day ∧ t1.month = t2.month ∧ t1.year = t2.year ∧
      t1.hour = t2.hour ∧ t1.minute = t2.minute) :
    get_filename an t1 = an ++ "-" ++ fmtMinute t1 ∧
    get_filename an t1 = get_filename an t2 := by
  obtain ⟨h1, h2, h3, h4, h5⟩ := h
  refine ⟨rfl, ?_⟩
  unfold get_filename fmtMinute
  rw [h1, h2, h3, h4, h5]

/-- Witness for C9 at two timestamps in the same minute differing in seconds. -/
theorem C9_filename_minute_stable_witness :
    get_filename "mc" ⟨1, 2, 25, 13, 7, 5⟩ =
      "mc" ++ "-" ++ fmtMinute ⟨1, 2, 25, 13, 7, 5⟩ ∧
    get_filename "mc" ⟨1, 2, 25, 13, 7, 5⟩ = get_filename "mc" ⟨1, 2, 25, 13, 7, 59⟩ :=
  C9_filename_minute_stable "mc" ⟨1, 2, 25, 13, 7, 5⟩ ⟨1, 2, 25, 13, 7, 59⟩
    ⟨rfl, rfl, rfl, rfl, rfl⟩

/-- C10: a flag-supplied retry limit remains the raw argument string (the integer
parsed into `retry_limit_arg` is discarded) while the default limit is the integer 10;
the `int`-versus-`str` comparison of the exhaustion check raises `TypeError`, so any
placement that reaches the check with a flag-supplied limit ends in the uncaught
`TypeError` instead of the documented exhaustion failure. -/
theorem C10_string_retry_limit (s : String) (hs : s ≠ "") (bd fn : String) (c : Nat)
    (dest : List String) (hcol : fn ++ ".7z" ∈ dest) :
    retry_limit_of (some s) = PyVal.str s ∧
    retry_limit_of none = PyVal.int 10 ∧
    pyGe (c + 1) (PyVal.str s) = CmpResult.typeErr ∧
    move_archive bd fn (retry_limit_of (some s)) c dest =
      MoveResult.typeError (c + 1) dest := by
  have h1 : retry_limit_of (some s) = PyVal.str s := by
    show (if s = "" then PyVal.int 10 else PyVal.str s) = PyVal.str s
    rw [if_neg hs]
  refine ⟨h1, rfl, rfl, ?_⟩
  rw [h1, move_archive_collide_str hcol]

/-- Witness for C10 with `--retries 5` and a colliding destination. -/
theorem C10_string_retry_limit_witness :
    retry_limit_of (some "5") = PyVal.str "5" ∧
    retry_limit_of none = PyVal.int 10 ∧
    pyGe (0 + 1) (PyVal.str "5") = CmpResult.typeErr ∧
    move_archive "d" "mc" (retry_limit_of (some "5")) 0 ["mc.7z"] =
      MoveResult.typeError (0 + 1) ["mc.7z"] :=
  C10_string_retry_limit "5" (by decide) "d" "mc" 0 ["mc.7z"] (by decide)

end SFTPBackup
